import Mathlib

/-!
Verification of the session-lifecycle and resource-reclamation broker in
`src/master.c` (geoclue master process).

The file-scope C state (`static GList *providers`, `static GList *clients`,
`static DBusGConnection *master_connection`, `static guint32 serial`) is
embedded as the structure `MasterState`.  The operations translated from the
source are:

* `client_destroyed`       (master.c lines 78-94, the weak-ref finalize callback)
* `find_client_by_sender`  (master.c lines 96-111)
* `name_owner_changed_filter` (master.c lines 113-156, restricted to well-formed
  `NameOwnerChanged` triples: the message-type and argument-parse guards at
  lines 120-130 drop everything else without touching the state)
* `gc_iface_master_create` (master.c lines 158-187)
* `gc_master_add_new_provider` / `gc_master_load_providers` (lines 206-268)
* `gc_master_get_providers` (lines 303-329)

`gc_master_provider_new` and `gc_master_provider_is_good` live in
`master-provider.c`, which is not part of the sources; they are modelled from
the specification (see the doc comments on `DirEntry.parse` and
`gc_master_provider_is_good`).
-/

namespace Geoclue

/-- A `GcMasterProvider` handle.  The attribute fields mirror the provider
record described in the spec: interface capability flags (bitset), accuracy
level, update-capability flag, resource flags (bitset).  `pid` distinguishes
distinct runtime handles (distinct heap objects). -/
structure Provider where
  iface : Nat
  accuracy : Nat
  updates : Bool
  resources : Nat
  pid : Nat
deriving Repr, DecidableEq

/-- A `GcMasterClient` (one session).  `cid` models the object pointer
identity (used by `g_list_remove` and by the weak-ref callback), `sender`
models `gc_master_client_get_sender` (a nullable string), `objectPath`
models `gc_master_client_get_object_path`. -/
structure Client where
  cid : Nat
  sender : Option String
  objectPath : Option String
deriving Repr, DecidableEq

/-- The file-scope mutable state of master.c, plus two observation logs.
`providers` and `clients` are the two static `GList`s (line 57-58);
`serial` is the static `guint32` counter of `gc_iface_master_create`
(line 163); `nextCid` generates fresh object identities (fresh heap
pointers); `exported` is the set of client object identities currently
registered on the D-Bus connection; `masterConnection` records whether the
static `master_connection` (line 59) is non-NULL.  `releaseCount` counts how
many times the provider-release block of `client_destroyed` has fired, and
`unrefLog` records every `g_object_unref (provider)` performed by that
block, in execution order (observation fields used to state the temporal
claims; they influence nothing). -/
structure MasterState where
  providers : List Provider
  clients : List Client
  serial : Nat
  nextCid : Nat
  exported : List Nat
  masterConnection : Bool
  releaseCount : Nat
  unrefLog : List Provider
deriving Repr, DecidableEq

/-- `GEOCLUE_MASTER_PATH` (master.c line 158). -/
def GEOCLUE_MASTER_PATH : String := "/org/freedesktop/Geoclue/Master/client"

/-- `PROVIDER_EXTENSION` (master.c line 225). -/
def PROVIDER_EXTENSION : String := ".provider"

/-- `guint32` modulus. -/
def UINT32_MOD : Nat := 4294967296

/-- `g_list_remove (clients, old_client)`: removes the first element whose
object identity matches, or leaves the list unchanged if none does. -/
def removeClient : List Client → Nat → List Client
  | [], _ => []
  | c :: cs, cid => if c.cid = cid then cs else c :: removeClient cs cid

/-- `client_destroyed` (master.c lines 78-94): the weak-ref callback run when
a client object is finalized.  The client is first removed from `clients`;
then, if the updated `clients` list is empty and `providers` is non-empty,
every provider is unreffed (in list order), the list is freed and the
`providers` pointer reset to NULL. -/
def client_destroyed (cid : Nat) (s : MasterState) : MasterState :=
  let clients' := removeClient s.clients cid
  if clients' = [] ∧ s.providers ≠ [] then
    { s with clients := clients'
           , providers := []
           , releaseCount := s.releaseCount + 1
           , unrefLog := s.unrefLog ++ s.providers }
  else
    { s with clients := clients' }

/-- `find_client_by_sender` (master.c lines 96-111): first client in list
order whose sender is non-NULL and string-equal to `sender`. -/
def find_client_by_sender (clients : List Client) (sender : String) : Option Client :=
  clients.find? (fun c =>
    match c.sender with
    | some cs => cs = sender
    | none => false)

/-- `name_owner_changed_filter` (master.c lines 113-156) applied to a
well-formed `NameOwnerChanged` signal carrying `(name, old_owner, new_owner)`.
If `old_owner` is non-empty and `new_owner` is empty, the filter looks up the
client whose sender equals `name`; when found, the client is unregistered
from the D-Bus connection (only when its object path is set and
`master_connection` is non-NULL) and then unreffed, which finalizes it and
runs `client_destroyed`.  Every other shape of the signal leaves the state
untouched. -/
def name_owner_changed_filter (name old_owner new_owner : String)
    (s : MasterState) : MasterState :=
  if old_owner ≠ "" ∧ new_owner = "" then
    match find_client_by_sender s.clients name with
    | some client =>
        let s1 :=
          if client.objectPath.isSome ∧ s.masterConnection then
            { s with exported := s.exported.erase client.cid }
          else s
        client_destroyed client.cid s1
    | none => s
  else s

/-- Decimal rendering of the serial counter: the `%d` conversion in
`g_strdup_printf ("%s%d", GEOCLUE_MASTER_PATH, serial++)` (master.c
line 168).  `serial` is a `guint32`; for every value below `2^31` this is
character-for-character what C prints. -/
def decimalString (n : Nat) : String :=
  if n = 0 then "0" else ⟨((Nat.digits 10 n).map Nat.digitChar).reverse⟩

/-- `gc_iface_master_create` (master.c lines 158-187): builds the object path
from the fixed prefix and the post-incremented serial, allocates a fresh
client, stores the caller's sender and the path on it, registers the object
on D-Bus under the path, tracks it (`add_client`: `g_list_prepend` plus weak
ref), and returns the path to the caller. -/
def gc_iface_master_create (sender : String) (s : MasterState) :
    MasterState × String :=
  let path := GEOCLUE_MASTER_PATH ++ decimalString s.serial
  let client : Client := { cid := s.nextCid
                         , sender := some sender
                         , objectPath := some path }
  ({ s with serial := (s.serial + 1) % UINT32_MOD
          , nextCid := s.nextCid + 1
          , exported := client.cid :: s.exported
          , clients := client :: s.clients }, path)

/-- One directory entry seen by `gc_master_load_providers`.  `parse` is the
result of `gc_master_provider_new (filename, connectivity)`.
Modelled from the spec: `gc_master_provider_new` lives in
`master-provider.c`, which is not among the sources; per spec §4.1 it either
yields an initialized provider or fails (NULL), and a failure is logged and
skipped. -/
structure DirEntry where
  filename : String
  parse : Option Provider
deriving Repr, DecidableEq

/-- `strrchr (filename, '.')`: the suffix of the name starting at its last
dot, or `none` when the name has no dot. -/
def strrchrDot : List Char → Option (List Char)
  | [] => none
  | c :: cs =>
      match strrchrDot cs with
      | some r => some r
      | none => if c = '.' then some (c :: cs) else none

/-- The extension test of master.c lines 252-257: the file is processed only
when `strrchr (filename, '.')` is non-NULL and equal to ".provider". -/
def hasProviderExt (filename : String) : Bool :=
  match strrchrDot filename.toList with
  | none => false
  | some ext => ext = PROVIDER_EXTENSION.toList

/-- `gc_master_add_new_provider` (master.c lines 206-222) acting on the pair
(providers list, warning count): a NULL result from
`gc_master_provider_new` logs one warning and returns, otherwise the
provider is prepended to the list. -/
def gc_master_add_new_provider (st : List Provider × Nat) (e : DirEntry) :
    List Provider × Nat :=
  match e.parse with
  | none => (st.1, st.2 + 1)
  | some p => (p :: st.1, st.2)

/-- `gc_master_load_providers` (master.c lines 227-268): scan the directory
entries in order; entries whose name fails the extension test are ignored
and the loop continues; the rest go through `gc_master_add_new_provider`.
Returns the final providers list together with the number of warnings
logged for failed providers. -/
def gc_master_load_providers (dir : List DirEntry) : List Provider × Nat :=
  dir.foldl
    (fun st e =>
      if hasProviderExt e.filename then gc_master_add_new_provider st e else st)
    ([], 0)

/-- `gc_master_init` (master.c lines 270-300) in the successful-connection
case: the connection is obtained and stored in `master_connection`, the
`NameOwnerChanged` filter is installed, and the providers are loaded.  (When
the connection cannot be obtained the function returns before touching any
of this state.) -/
def gc_master_init (dir : List DirEntry) : MasterState :=
  { providers := (gc_master_load_providers dir).1
  , clients := []
  , serial := 0
  , nextCid := 0
  , exported := []
  , masterConnection := true
  , releaseCount := 0
  , unrefLog := [] }

/-- Modelled from the spec: `gc_master_provider_is_good` lives in
`master-provider.c`, which is not among the sources.  Spec §4.2: a provider
qualifies iff its capability flags are a superset of the requested flags,
its accuracy is at least `min_accuracy`, it is update-capable if updates are
required, and its resource flags are a subset of the allowed flags. -/
def gc_master_provider_is_good (p : Provider) (iface_type : Nat)
    (min_accuracy : Nat) (can_update : Bool) (allowed : Nat) : Bool :=
  (Nat.land iface_type p.iface = iface_type)
    && (decide (min_accuracy ≤ p.accuracy))
    && (!can_update || p.updates)
    && (Nat.land p.resources allowed = p.resources)

/-- `gc_master_get_providers` (master.c lines 303-329): returns NULL (the
empty list) when the registry is empty, otherwise walks the registry and
prepends every provider passing `gc_master_provider_is_good` to the result
list.  No error is ever set. -/
def gc_master_get_providers (provs : List Provider) (iface_type : Nat)
    (min_accuracy : Nat) (can_update : Bool) (allowed : Nat) : List Provider :=
  if provs = [] then []
  else
    provs.foldl
      (fun acc pr =>
        if gc_master_provider_is_good pr iface_type min_accuracy can_update allowed
        then pr :: acc else acc)
      []

/-- The provider-release block of `client_destroyed` (master.c lines 84-93)
in isolation: when the registry is non-empty every provider is unreffed
exactly once (in list order), the list is freed and the pointer reset to
NULL; when the registry is already empty the guard skips the block
entirely.  Returns the new registry together with the list of providers
unreffed by this call. -/
def release_all (provs : List Provider) : List Provider × List Provider :=
  if provs = [] then (provs, []) else ([], provs)

/-- An externally triggered event hitting the master state: a `CreateSession`
call (carrying the transport-supplied sender), a well-formed
`NameOwnerChanged` signal, or the finalization of a client object whose last
reference was dropped (running the weak-ref callback). -/
inductive Op where
  | create (sender : String)
  | notify (name old_owner new_owner : String)
  | finalize (cid : Nat)
deriving Repr, DecidableEq

/-- Dispatch one event against the master state. -/
def step (s : MasterState) : Op → MasterState
  | .create sender => (gc_iface_master_create sender s).1
  | .notify name old_owner new_owner =>
      name_owner_changed_filter name old_owner new_owner s
  | .finalize cid => client_destroyed cid s

/-- Run a sequence of events. -/
def run (s : MasterState) (ops : List Op) : MasterState := ops.foldl step s

/-! ### Helper lemmas -/

/-- Folding a prepend-if-predicate step over a list accumulates the reversed
filtered list in front of the accumulator. -/
theorem foldl_prepend_filter {α : Type} (p : α → Bool) :
    ∀ (l acc : List α),
      l.foldl (fun acc a => if p a then a :: acc else acc) acc
        = (l.filter p).reverse ++ acc := by
  intro l
  induction l with
  | nil => intro acc; simp
  | cons a l ih =>
      intro acc
      by_cases h : p a
      · simp only [List.foldl_cons, List.filter_cons, h, if_true, ih,
          List.reverse_cons, List.append_assoc, List.singleton_append]
      · simp only [List.foldl_cons, List.filter_cons, h, if_false, ih,
          Bool.false_eq_true, List.reverse_cons]

/-- `gc_master_get_providers` computes the reversed filtering of the registry
by `gc_master_provider_is_good`. -/
theorem gc_master_get_providers_eq (provs : List Provider) (iface_type : Nat)
    (min_accuracy : Nat) (can_update : Bool) (allowed : Nat) :
    gc_master_get_providers provs iface_type min_accuracy can_update allowed
      = (provs.filter
          (fun pr =>
            gc_master_provider_is_good pr iface_type min_accuracy can_update allowed)).reverse := by
  unfold gc_master_get_providers
  by_cases h : provs = []
  · simp [h]
  · rw [if_neg h, foldl_prepend_filter, List.append_nil]

/-! ### Claim theorems -/

/-- C3: for every registry state and every request tuple, the selection
operation returns exactly the subset of registered providers satisfying the
four qualification predicates (no false positive, no false negative), and it
returns the empty list — not an error — when the registry is empty or no
provider matches. -/
theorem C3_selection_correct (provs : List Provider) (iface_type : Nat)
    (min_accuracy : Nat) (can_update : Bool) (allowed : Nat) :
    (∀ pr : Provider,
        pr ∈ gc_master_get_providers provs iface_type min_accuracy can_update allowed
          ↔ pr ∈ provs
            ∧ gc_master_provider_is_good pr iface_type min_accuracy can_update allowed
                = true)
    ∧ (provs = [] →
        gc_master_get_providers provs iface_type min_accuracy can_update allowed = [])
    ∧ ((∀ pr ∈ provs,
          gc_master_provider_is_good pr iface_type min_accuracy can_update allowed
            = false) →
        gc_master_get_providers provs iface_type min_accuracy can_update allowed = []) := by
  refine ⟨?_, ?_, ?_⟩
  · intro pr
    rw [gc_master_get_providers_eq, List.mem_reverse, List.mem_filter]
  · intro h
    rw [gc_master_get_providers_eq, h]
    rfl
  · intro h
    rw [gc_master_get_providers_eq, List.filter_eq_nil_iff.mpr, List.reverse_nil]
    intro pr hpr
    rw [h pr hpr]
    exact Bool.false_ne_true

/-- C3 witness: a concrete two-provider registry where exactly the matching
provider is selected, and concrete empty / no-match queries return `[]`. -/
theorem C3_selection_correct_witness :
    (({ iface := 1, accuracy := 5, updates := true, resources := 2, pid := 0 } : Provider)
        ∈ gc_master_get_providers
            [{ iface := 1, accuracy := 5, updates := true, resources := 2, pid := 0 },
             { iface := 0, accuracy := 1, updates := false, resources := 2, pid := 1 }]
            1 3 true 3
      ↔ ({ iface := 1, accuracy := 5, updates := true, resources := 2, pid := 0 } : Provider)
          ∈ [({ iface := 1, accuracy := 5, updates := true, resources := 2, pid := 0 } : Provider),
             { iface := 0, accuracy := 1, updates := false, resources := 2, pid := 1 }]
        ∧ gc_master_provider_is_good
            { iface := 1, accuracy := 5, updates := true, resources := 2, pid := 0 }
            1 3 true 3 = true)
    ∧ gc_master_get_providers [] 1 3 true 3 = [] := by
  refine ⟨(C3_selection_correct
      [{ iface := 1, accuracy := 5, updates := true, resources := 2, pid := 0 },
       { iface := 0, accuracy := 1, updates := false, resources := 2, pid := 1 }]
      1 3 true 3).1 _, (C3_selection_correct [] 1 3 true 3).2.1 rfl⟩

/-- C6: an identity-change notification whose old owner is empty (a new peer
appearing) or whose new owner is non-empty (ownership transfer) never
destroys a session and leaves the whole master state unchanged. -/
theorem C6_irrelevant_notifications_ignored (s : MasterState)
    (name old_owner new_owner : String)
    (h : old_owner = "" ∨ new_owner ≠ "") :
    step s (Op.notify name old_owner new_owner) = s := by
  show name_owner_changed_filter name old_owner new_owner s = s
  unfold name_owner_changed_filter
  rcases h with h | h
  · rw [if_neg]
    intro hc
    exact hc.1 h
  · rw [if_neg]
    intro hc
    exact h hc.2

/-- C6 witness: a concrete appearing-peer notification and state. -/
theorem C6_irrelevant_notifications_ignored_witness :
    step (gc_master_init []) (Op.notify ":1.42" "" ":1.42") = gc_master_init [] :=
  C6_irrelevant_notifications_ignored (gc_master_init []) ":1.42" "" ":1.42"
    (Or.inl rfl)

/-- C7: the provider-release behaviour is idempotent: a second invocation on
the registry produced by a first one yields the same empty registry and
unrefs nothing (no double-free); invoking it on an already-empty registry is
a no-op; and inside `client_destroyed` the registry resulting from a
destruction that empties the client list is exactly the one produced by the
release block. -/
theorem C7_release_all_idempotent (provs : List Provider) :
    release_all (release_all provs).1 = ((release_all provs).1, [])
    ∧ (release_all provs).1 = []
    ∧ release_all ([] : List Provider) = ([], [])
    ∧ (∀ (s : MasterState) (cid : Nat),
        (client_destroyed cid s).providers
          = (if removeClient s.clients cid = [] then (release_all s.providers).1
             else s.providers)) := by
  have h1 : (release_all provs).1 = [] := by
    unfold release_all
    by_cases h : provs = []
    · rw [if_pos h, h]
    · rw [if_neg h]
  refine ⟨?_, h1, rfl, ?_⟩
  · rw [h1]
    rfl
  · intro s cid
    unfold client_destroyed release_all
    by_cases hc : removeClient s.clients cid = []
    · by_cases hp : s.providers = []
      · rw [if_neg, if_pos hc, if_pos hp, hp]
        intro hand
        exact hand.2 hp
      · rw [if_pos ⟨hc, hp⟩, if_pos hc, if_neg hp]
    · rw [if_neg, if_neg hc]
      intro hand
      exact hc hand.1

/-- Unfolding of the provider-loading fold over an arbitrary accumulator. -/
theorem gc_master_load_providers_foldl :
    ∀ (dir : List DirEntry) (ps : List Provider) (w : Nat),
      dir.foldl
        (fun st e =>
          if hasProviderExt e.filename then gc_master_add_new_provider st e else st)
        (ps, w)
      = (((dir.filter (fun e => hasProviderExt e.filename)).filterMap
            DirEntry.parse).reverse ++ ps,
         w + ((dir.filter (fun e => hasProviderExt e.filename)).filter
            (fun e => e.parse.isNone)).length) := by
  intro dir
  induction dir with
  | nil => intro ps w; simp
  | cons e dir ih =>
      intro ps w
      rw [List.foldl_cons]
      by_cases hext : hasProviderExt e.filename
      · rw [if_pos hext]
        cases hparse : e.parse with
        | none =>
            have hstep : gc_master_add_new_provider (ps, w) e = (ps, w + 1) := by
              unfold gc_master_add_new_provider
              rw [hparse]
            rw [hstep, ih]
            simp only [List.filter_cons, hext, if_true, hparse, Option.isNone_none,
              List.length_cons, Prod.mk.injEq]
            constructor
            · rw [List.filterMap_cons_none]
              exact hparse
            · omega
        | some p =>
            have hstep : gc_master_add_new_provider (ps, w) e = (p :: ps, w) := by
              unfold gc_master_add_new_provider
              rw [hparse]
            rw [hstep, ih]
            simp only [List.filter_cons, hext, if_true, hparse, Option.isNone_some,
              List.length_cons, Prod.mk.injEq]
            constructor
            · rw [List.filterMap_cons_some (h := hparse)]
              simp
            · simp
      · rw [if_neg hext, ih]
        simp [List.filter_cons, hext]

/-- A concrete provider record used in witnesses and counterexamples. -/
def gpsProvider : Provider :=
  { iface := 1, accuracy := 5, updates := true, resources := 2, pid := 100 }

/-- A second concrete provider record. -/
def wifiProvider : Provider :=
  { iface := 3, accuracy := 3, updates := false, resources := 1, pid := 101 }

/-- A third concrete provider record. -/
def cellProvider : Provider :=
  { iface := 2, accuracy := 1, updates := true, resources := 4, pid := 102 }

/-- A concrete provider directory: three descriptors whose providers
initialize, one descriptor whose provider fails to initialize, and one file
without the provider extension. -/
def sampleDir : List DirEntry :=
  [ { filename := "gps.provider", parse := some gpsProvider }
  , { filename := "wifi.provider", parse := some wifiProvider }
  , { filename := "broken.provider", parse := none }
  , { filename := "readme.txt", parse := some cellProvider }
  , { filename := "cell.provider", parse := some cellProvider } ]

/-- C8: the provider scan registers exactly the providers that initialized
successfully among the files carrying the provider extension, logs one
warning per failed descriptor without aborting the scan, and ignores files
with any other extension; in particular the concrete directory with three
valid descriptors and one malformed one yields exactly three providers and
one warning. -/
theorem C8_load_partial_failure (dir : List DirEntry) :
    ((gc_master_load_providers dir).1
        = ((dir.filter (fun e => hasProviderExt e.filename)).filterMap
            DirEntry.parse).reverse
      ∧ (gc_master_load_providers dir).2
          = ((dir.filter (fun e => hasProviderExt e.filename)).filter
              (fun e => e.parse.isNone)).length)
    ∧ (gc_master_load_providers sampleDir).1
        = [cellProvider, wifiProvider, gpsProvider]
    ∧ (gc_master_load_providers sampleDir).2 = 1 := by
  refine ⟨?_, rfl, rfl⟩
  unfold gc_master_load_providers
  rw [gc_master_load_providers_foldl]
  exact ⟨by simp, by simp⟩

/-- The initialized master state holding exactly one provider, used to refute
the two-directional idle-teardown invariant. -/
def oneProviderStart : MasterState :=
  gc_master_init [{ filename := "gps.provider", parse := some gpsProvider }]

/-- The run that refutes the two-directional invariant: a session is created,
its peer disappears (tearing the registry down), and a second session is
then created.  After the final operation the tracked session set is
non-empty while the provider registry is empty. -/
def c1Run : MasterState :=
  run oneProviderStart
    [Op.create ":1.1", Op.notify ":1.1" ":1.1" "", Op.create ":1.2"]

/-- C1 counterexample: after the concrete operation sequence
create, destroy-via-disconnect, create, the claimed equivalence
"registry non-empty iff tracked session set non-empty" is false: the session
set is non-empty while the registry is empty (the registry is never
repopulated after the idle teardown). -/
theorem C1_counterexample :
    ¬ (c1Run.providers ≠ [] ↔ c1Run.clients ≠ []) := by
  intro hiff
  have hp : c1Run.providers = [] := rfl
  have hc : c1Run.clients.length = 1 := rfl
  have hne : c1Run.clients ≠ [] := by
    intro h
    rw [h] at hc
    exact Nat.noConfusion hc
  exact (hiff.mpr hne) hp

/-- C1 amended: after every session-create or session-destroy operation, if
the tracked session set is empty then the provider registry is empty.  (The
converse direction of the original claim fails, since the registry is never
repopulated once released; it also does not hold before the first operation,
the registry being loaded eagerly at startup while no session exists.) -/
theorem C1_amended (s : MasterState) (op : Op)
    (h : (∃ sender, op = Op.create sender) ∨ (∃ cid, op = Op.finalize cid)) :
    (step s op).clients = [] → (step s op).providers = [] := by
  rcases h with ⟨sender, rfl⟩ | ⟨cid, rfl⟩
  · intro hc
    exact absurd hc (by simp [step, gc_iface_master_create])
  · show (client_destroyed cid s).clients = [] → (client_destroyed cid s).providers = []
    intro hc
    unfold client_destroyed at hc ⊢
    by_cases hcond : removeClient s.clients cid = [] ∧ s.providers ≠ []
    · rw [if_pos hcond]
    · rw [if_neg hcond] at hc ⊢
      simp only at hc
      by_cases hp : s.providers = []
      · exact hp
      · exact absurd ⟨hc, hp⟩ hcond

/-- C1 amended witness: destroying the only session of a concrete state
empties both the session set and the registry. -/
theorem C1_amended_witness :
    (step (run oneProviderStart [Op.create ":1.1"]) (Op.finalize 0)).providers = [] :=
  C1_amended (run oneProviderStart [Op.create ":1.1"]) (Op.finalize 0)
    (Or.inr ⟨0, rfl⟩) rfl

/-- C2: in `client_destroyed` the removal from the tracked set happens
strictly before the emptiness check — the check reads the post-removal list —
and the provider release fires exactly on the transition to an empty tracked
set with a non-empty registry: destroying the last remaining session unrefs
every provider exactly once and empties the registry; a destruction finding
the registry already empty performs no release; a destruction leaving
sessions behind performs no release either. -/
theorem C2_release_exactly_on_empty_transition (s : MasterState) (cid : Nat) :
    ((removeClient s.clients cid = [] ∧ s.providers ≠ []) →
        (client_destroyed cid s).providers = []
        ∧ (client_destroyed cid s).releaseCount = s.releaseCount + 1
        ∧ (client_destroyed cid s).unrefLog = s.unrefLog ++ s.providers)
    ∧ (s.providers = [] →
        (client_destroyed cid s).releaseCount = s.releaseCount
        ∧ (client_destroyed cid s).providers = []
        ∧ (client_destroyed cid s).unrefLog = s.unrefLog)
    ∧ (removeClient s.clients cid ≠ [] →
        (client_destroyed cid s).releaseCount = s.releaseCount
        ∧ (client_destroyed cid s).providers = s.providers
        ∧ (client_destroyed cid s).unrefLog = s.unrefLog)
    ∧ (client_destroyed cid s).clients = removeClient s.clients cid := by
  unfold client_destroyed
  by_cases hcond : removeClient s.clients cid = [] ∧ s.providers ≠ []
  · rw [if_pos hcond]
    refine ⟨fun _ => ⟨rfl, rfl, rfl⟩, ?_, ?_, rfl⟩
    · intro hp
      exact absurd hp hcond.2
    · intro hne
      exact absurd hcond.1 hne
  · rw [if_neg hcond]
    refine ⟨fun h => absurd h hcond, fun hp => ⟨rfl, ?_, rfl⟩, fun _ => ⟨rfl, rfl, rfl⟩, rfl⟩
    exact hp


/-- C2 witness: destroying the only session of a concrete one-provider state
bumps the release count by exactly one. -/
theorem C2_release_exactly_on_empty_transition_witness :
    (client_destroyed 0 (run oneProviderStart [Op.create ":1.1"])).releaseCount
      = (run oneProviderStart [Op.create ":1.1"]).releaseCount + 1 :=
  ((C2_release_exactly_on_empty_transition
      (run oneProviderStart [Op.create ":1.1"]) 0).1
    ⟨rfl, List.cons_ne_nil _ _⟩).2.1

/-- No event ever repopulates an empty provider registry. -/
theorem step_preserves_empty_providers (s : MasterState) (op : Op)
    (h : s.providers = []) : (step s op).providers = [] := by
  have hcd : ∀ (cid : Nat) (t : MasterState), t.providers = [] →
      (client_destroyed cid t).providers = [] := by
    intro cid t ht
    unfold client_destroyed
    by_cases hcond : removeClient t.clients cid = [] ∧ t.providers ≠ []
    · rw [if_pos hcond]
    · rw [if_neg hcond]
      exact ht
  cases op with
  | create sender => exact h
  | notify name old_owner new_owner =>
      show (name_owner_changed_filter name old_owner new_owner s).providers = []
      unfold name_owner_changed_filter
      by_cases hcond : old_owner ≠ "" ∧ new_owner = ""
      · rw [if_pos hcond]
        cases hfind : find_client_by_sender s.clients name with
        | some client =>
            refine hcd client.cid _ ?_
            split
            · exact h
            · exact h
        | none => exact h
      · rw [if_neg hcond]
        exact h
  | finalize cid => exact hcd _ _ h

/-- C10: once the registry is empty it stays empty under every later event;
provider selection then always returns the empty list; and session creation
still succeeds — it grows the tracked set by one and returns the handle
built from the fixed prefix and the current serial. -/
theorem C10_registry_stays_empty (s : MasterState) (ops : List Op)
    (h : s.providers = []) :
    (run s ops).providers = []
    ∧ (∀ (iface_type min_accuracy : Nat) (can_update : Bool) (allowed : Nat),
        gc_master_get_providers (run s ops).providers iface_type min_accuracy
          can_update allowed = [])
    ∧ (∀ sender : String,
        ((gc_iface_master_create sender (run s ops)).1).clients.length
            = (run s ops).clients.length + 1
          ∧ (gc_iface_master_create sender (run s ops)).2
              = GEOCLUE_MASTER_PATH ++ decimalString (run s ops).serial) := by
  have hrun : (run s ops).providers = [] := by
    induction ops generalizing s with
    | nil => exact h
    | cons op ops ih =>
        show (run (step s op) ops).providers = []
        exact ih (step s op) (step_preserves_empty_providers s op h)
  refine ⟨hrun, ?_, ?_⟩
  · intro iface_type min_accuracy can_update allowed
    rw [gc_master_get_providers_eq, hrun]
    rfl
  · intro sender
    exact ⟨rfl, rfl⟩

/-- C10 witness: after the teardown run `c1Run` (whose registry is already
empty) followed by a further session creation, the registry is still
empty. -/
theorem C10_registry_stays_empty_witness :
    (run c1Run [Op.create ":1.3"]).providers = [] :=
  (C10_registry_stays_empty c1Run [Op.create ":1.3"] rfl).1

/-- `client_destroyed` always leaves the post-removal client list in the
state. -/
theorem client_destroyed_clients (cid : Nat) (s : MasterState) :
    (client_destroyed cid s).clients = removeClient s.clients cid := by
  unfold client_destroyed
  by_cases h : removeClient s.clients cid = [] ∧ s.providers ≠ []
  · rw [if_pos h]
  · rw [if_neg h]

/-- `client_destroyed` never touches the exported set. -/
theorem client_destroyed_exported (cid : Nat) (s : MasterState) :
    (client_destroyed cid s).exported = s.exported := by
  unfold client_destroyed
  by_cases h : removeClient s.clients cid = [] ∧ s.providers ≠ []
  · rw [if_pos h]
  · rw [if_neg h]

/-- When a destruction empties the tracked set, the registry ends up empty
whether or not it held providers. -/
theorem client_destroyed_providers_empty (cid : Nat) (s : MasterState)
    (h : removeClient s.clients cid = []) :
    (client_destroyed cid s).providers = [] := by
  unfold client_destroyed
  by_cases hp : s.providers = []
  · rw [if_neg (fun hc => hc.2 hp)]
    exact hp
  · rw [if_pos ⟨h, hp⟩]

/-- Everything surviving `removeClient` was in the original list. -/
theorem removeClient_subset (l : List Client) (cid : Nat) :
    ∀ x ∈ removeClient l cid, x ∈ l := by
  induction l with
  | nil => intro x hx; exact absurd hx (by simp [removeClient])
  | cons a t ih =>
      intro x hx
      unfold removeClient at hx
      by_cases ha : a.cid = cid
      · rw [if_pos ha] at hx
        exact List.mem_cons_of_mem a hx
      · rw [if_neg ha] at hx
        rcases List.mem_cons.mp hx with hx | hx
        · exact hx ▸ List.mem_cons_self a t
        · exact List.mem_cons_of_mem a (ih x hx)

/-- With pairwise-distinct object identities, no survivor of `removeClient`
carries the removed identity. -/
theorem removeClient_cid_not_mem (l : List Client) (cid : Nat)
    (hnodup : (l.map Client.cid).Nodup) :
    ∀ c' ∈ removeClient l cid, c'.cid ≠ cid := by
  induction l with
  | nil => intro c' hc'; exact absurd hc' (by simp [removeClient])
  | cons a t ih =>
      rw [List.map_cons, List.nodup_cons] at hnodup
      intro c' hc'
      unfold removeClient at hc'
      by_cases ha : a.cid = cid
      · rw [if_pos ha] at hc'
        intro heq
        apply hnodup.1
        have hmem : c'.cid ∈ t.map Client.cid := List.mem_map_of_mem Client.cid hc'
        rw [heq, ← ha] at hmem
        exact hmem
      · rw [if_neg ha] at hc'
        rcases List.mem_cons.mp hc' with hx | hx
        · rw [hx]
          exact ha
        · exact ih hnodup.2 c' hx

/-- The sender test inside `find_client_by_sender` is propositional equality
of the stored sender with `some sender`. -/
theorem sender_pred_eq (S : String) (c : Client) :
    (match c.sender with
      | some cs => decide (cs = S)
      | none => false) = decide (c.sender = some S) := by
  cases c.sender with
  | none => simp
  | some cs => simp

/-- `find_client_by_sender` as a `find?` over the propositional sender
test. -/
theorem find_client_by_sender_eq (l : List Client) (S : String) :
    find_client_by_sender l S
      = l.find? (fun c => decide (c.sender = some S)) := by
  unfold find_client_by_sender
  congr 1
  funext c
  exact sender_pred_eq S c

/-- If `c` is a tracked client with sender `S` and at most one tracked
client carries sender `S`, the lookup returns exactly `c`. -/
theorem find_client_of_unique (l : List Client) (S : String) (c : Client)
    (hmem : c ∈ l) (hsender : c.sender = some S)
    (hone : ∀ c1 ∈ l, ∀ c2 ∈ l, c1.sender = some S → c2.sender = some S → c1 = c2) :
    find_client_by_sender l S = some c := by
  rw [find_client_by_sender_eq]
  induction l with
  | nil => exact absurd hmem (List.not_mem_nil c)
  | cons a t ih =>
      by_cases ha : a.sender = some S
      · rw [List.find?_cons_of_pos t (by simp [ha])]
        have : a = c :=
          hone a (List.mem_cons_self a t) c hmem ha hsender
        rw [this]
      · rw [List.find?_cons_of_neg t (by simp [ha])]
        have hmem' : c ∈ t := by
          rcases List.mem_cons.mp hmem with h | h
          · exact absurd (h ▸ hsender) ha
          · exact h
        exact ih hmem'
          (fun c1 h1 c2 h2 => hone c1 (List.mem_cons_of_mem a h1) c2 (List.mem_cons_of_mem a h2))

/-- After removing the looked-up client, a second lookup for the same sender
finds nothing (given distinct identities and at most one session per
sender). -/
theorem find_client_none_after_remove (l : List Client) (S : String) (c : Client)
    (hfind : find_client_by_sender l S = some c)
    (hnodup : (l.map Client.cid).Nodup)
    (hone : ∀ c1 ∈ l, ∀ c2 ∈ l, c1.sender = some S → c2.sender = some S → c1 = c2) :
    find_client_by_sender (removeClient l c.cid) S = none := by
  rw [find_client_by_sender_eq] at hfind ⊢
  have hsender : c.sender = some S := by
    have := List.find?_some hfind
    simpa using this
  have hmemc : c ∈ l := List.mem_of_find?_eq_some hfind
  rw [List.find?_eq_none]
  intro x hx hpx
  have hxl : x ∈ l := removeClient_subset l c.cid x hx
  have hxs : x.sender = some S := by simpa using hpx
  have : x = c := hone x hxl c hmemc hxs hsender
  exact removeClient_cid_not_mem l c.cid hnodup x hx (this ▸ rfl)

/-- Shape of the filter on a relevant disappearance notification that finds
a matching client: unregister (when the path and the stored connection make
it possible), then unref, finalizing the client. -/
theorem notify_found_eq (s : MasterState) (S : String) (c : Client)
    (hS : S ≠ "") (hfind : find_client_by_sender s.clients S = some c) :
    name_owner_changed_filter S S "" s
      = client_destroyed c.cid
          (if c.objectPath.isSome ∧ s.masterConnection then
            { s with exported := s.exported.erase c.cid }
           else s) := by
  unfold name_owner_changed_filter
  rw [if_pos ⟨hS, rfl⟩, hfind]

/-- A relevant disappearance notification that finds no matching client
leaves the state unchanged. -/
theorem notify_not_found_eq (s : MasterState) (S old_owner new_owner : String)
    (hfind : find_client_by_sender s.clients S = none) :
    name_owner_changed_filter S old_owner new_owner s = s := by
  unfold name_owner_changed_filter
  by_cases hc : old_owner ≠ "" ∧ new_owner = ""
  · rw [if_pos hc, hfind]
  · rw [if_neg hc]

/-- C4: for a tracked session whose requester identity is the non-empty
sender `S` (sessions carrying distinct object identities and at most one
session per sender, as the liveness matching assumes), delivering the
identity-change notification `(name = S, old = S, new = "")` destroys that
session: it is removed from the tracked set, it is unregistered from the
transport, and if it was the only tracked session the provider registry
becomes empty. -/
theorem C4_disconnect_destroys_session (s : MasterState) (S : String) (c : Client)
    (hS : S ≠ "")
    (hmem : c ∈ s.clients)
    (hsender : c.sender = some S)
    (hone : ∀ c1 ∈ s.clients, ∀ c2 ∈ s.clients,
        c1.sender = some S → c2.sender = some S → c1 = c2)
    (hpath : c.objectPath.isSome = true)
    (hconn : s.masterConnection = true)
    (hnodup : (s.clients.map Client.cid).Nodup)
    (hexp : s.exported.Nodup) :
    (step s (Op.notify S S "")).clients = removeClient s.clients c.cid
    ∧ (∀ c' ∈ (step s (Op.notify S S "")).clients, c'.cid ≠ c.cid)
    ∧ (step s (Op.notify S S "")).exported = s.exported.erase c.cid
    ∧ c.cid ∉ (step s (Op.notify S S "")).exported
    ∧ (s.clients = [c] → (step s (Op.notify S S "")).providers = []) := by
  have hfind : find_client_by_sender s.clients S = some c :=
    find_client_of_unique s.clients S c hmem hsender hone
  have hstep : step s (Op.notify S S "")
      = client_destroyed c.cid { s with exported := s.exported.erase c.cid } := by
    show name_owner_changed_filter S S "" s = _
    rw [notify_found_eq s S c hS hfind, if_pos ⟨hpath, hconn⟩]
  rw [hstep]
  refine ⟨client_destroyed_clients _ _, ?_, client_destroyed_exported _ _, ?_, ?_⟩
  · rw [client_destroyed_clients]
    exact removeClient_cid_not_mem s.clients c.cid hnodup
  · rw [client_destroyed_exported]
    exact hexp.not_mem_erase
  · intro honly
    refine client_destroyed_providers_empty _ _ ?_
    show removeClient s.clients c.cid = []
    rw [honly]
    unfold removeClient
    rw [if_pos rfl]

/-- C4 witness: in the concrete one-provider, one-session state the
disappearance of `":1.1"` empties both the session set and the registry. -/
theorem C4_disconnect_destroys_session_witness :
    (step (run oneProviderStart [Op.create ":1.1"]) (Op.notify ":1.1" ":1.1" "")).providers
      = [] := by
  have hc : (run oneProviderStart [Op.create ":1.1"]).clients
      = [{ cid := 0, sender := some ":1.1"
         , objectPath := some (GEOCLUE_MASTER_PATH ++ decimalString 0) }] := rfl
  refine (C4_disconnect_destroys_session (run oneProviderStart [Op.create ":1.1"]) ":1.1"
      { cid := 0, sender := some ":1.1"
      , objectPath := some (GEOCLUE_MASTER_PATH ++ decimalString 0) }
      (by decide) ?_ rfl ?_ rfl rfl (by decide) (by decide)).2.2.2.2 hc
  · rw [hc]
    exact List.mem_singleton.mpr rfl
  · rw [hc]
    intro c1 h1 c2 h2 _ _
    rw [List.mem_singleton.mp h1, List.mem_singleton.mp h2]

/-- C5: delivering the same peer-disappearance notification twice is safe:
when the lookup finds no client the state is completely unchanged, and under
the at-most-one-session-per-sender assumption of the liveness matching, a
second delivery right after the first one is a no-op (the destroyed session
is no longer found). -/
theorem C5_duplicate_notification_noop (s : MasterState) (S : String)
    (hnodup : (s.clients.map Client.cid).Nodup)
    (hone : ∀ c1 ∈ s.clients, ∀ c2 ∈ s.clients,
        c1.sender = some S → c2.sender = some S → c1 = c2) :
    (find_client_by_sender s.clients S = none → step s (Op.notify S S "") = s)
    ∧ step (step s (Op.notify S S "")) (Op.notify S S "")
        = step s (Op.notify S S "") := by
  have hpart1 : ∀ t : MasterState, find_client_by_sender t.clients S = none →
      step t (Op.notify S S "") = t := by
    intro t hfind
    show name_owner_changed_filter S S "" t = t
    exact notify_not_found_eq t S S "" hfind
  refine ⟨hpart1 s, ?_⟩
  cases hfind : find_client_by_sender s.clients S with
  | none =>
      rw [hpart1 s hfind]
      exact hpart1 s hfind
  | some c =>
      by_cases hS : S = ""
      · have hid : step s (Op.notify S S "") = s := by
          show name_owner_changed_filter S S "" s = s
          unfold name_owner_changed_filter
          rw [if_neg]
          intro hcond
          exact hcond.1 hS
        rw [hid]
        exact hid
      · have hstep : step s (Op.notify S S "")
            = client_destroyed c.cid
                (if c.objectPath.isSome ∧ s.masterConnection then
                  { s with exported := s.exported.erase c.cid } else s) :=
          notify_found_eq s S c hS hfind
        have hclients : (step s (Op.notify S S "")).clients
            = removeClient s.clients c.cid := by
          rw [hstep, client_destroyed_clients]
          split <;> rfl
        have hnone :
            find_client_by_sender (step s (Op.notify S S "")).clients S = none := by
          rw [hclients]
          exact find_client_none_after_remove s.clients S c hfind hnodup hone
        exact hpart1 _ hnone

/-- C5 witness: in the concrete one-session state, delivering the
disappearance of `":1.1"` twice equals delivering it once. -/
theorem C5_duplicate_notification_noop_witness :
    step (step (run oneProviderStart [Op.create ":1.1"]) (Op.notify ":1.1" ":1.1" ""))
        (Op.notify ":1.1" ":1.1" "")
      = step (run oneProviderStart [Op.create ":1.1"]) (Op.notify ":1.1" ":1.1" "") := by
  have hc : (run oneProviderStart [Op.create ":1.1"]).clients
      = [{ cid := 0, sender := some ":1.1"
         , objectPath := some (GEOCLUE_MASTER_PATH ++ decimalString 0) }] := rfl
  refine (C5_duplicate_notification_noop (run oneProviderStart [Op.create ":1.1"]) ":1.1"
      (by decide) ?_).2
  rw [hc]
  intro c1 h1 c2 h2 _ _
  rw [List.mem_singleton.mp h1, List.mem_singleton.mp h2]

/-- N consecutive `CreateSession` calls: threads the state through
`gc_iface_master_create` once per caller and collects the returned object
paths in call order. -/
def createMany (s : MasterState) : List String → MasterState × List String
  | [] => (s, [])
  | sender :: rest =>
      let r := gc_iface_master_create sender s
      let r2 := createMany r.1 rest
      (r2.1, r.2 :: r2.2)

/-- `Nat.digitChar` is injective below base 10. -/
theorem digitChar_inj_lt : ∀ a < 10, ∀ b < 10,
    Nat.digitChar a = Nat.digitChar b → a = b := by decide

/-- Mapping `Nat.digitChar` over digit lists (all entries below 10) is
injective. -/
theorem map_digitChar_inj : ∀ (l1 l2 : List Nat),
    (∀ d ∈ l1, d < 10) → (∀ d ∈ l2, d < 10) →
    l1.map Nat.digitChar = l2.map Nat.digitChar → l1 = l2 := by
  intro l1
  induction l1 with
  | nil =>
      intro l2 _ _ h
      cases l2 with
      | nil => rfl
      | cons b u => exact absurd h (by simp)
  | cons a t ih =>
      intro l2 h1 h2 h
      cases l2 with
      | nil => exact absurd h (by simp)
      | cons b u =>
          simp only [List.map_cons, List.cons.injEq] at h
          have hab : a = b :=
            digitChar_inj_lt a (h1 a (List.mem_cons_self a t)) b
              (h2 b (List.mem_cons_self b u)) h.1
          rw [hab,
            ih u (fun d hd => h1 d (List.mem_cons_of_mem a hd))
              (fun d hd => h2 d (List.mem_cons_of_mem b hd)) h.2]

/-- A non-zero number never renders as the single character `'0'`. -/
theorem decimalString_ne_zero_render (n : Nat) (hn : n ≠ 0) :
    ['0'] ≠ ((Nat.digits 10 n).map Nat.digitChar).reverse := by
  intro h
  have hlen : (Nat.digits 10 n).length = 1 := by
    have := congrArg List.length h
    simpa using this.symm
  obtain ⟨d, hd⟩ := List.length_eq_one.mp hlen
  have hd0 : Nat.digitChar d = '0' := by
    rw [hd] at h
    simpa using h.symm
  have hdlt : d < 10 :=
    Nat.digits_lt_base (by norm_num) (hd ▸ List.mem_singleton.mpr rfl)
  have hdz : d = 0 := digitChar_inj_lt d hdlt 0 (by norm_num) hd0
  have hlast := Nat.getLast_digit_ne_zero 10 hn
  rw [List.getLast_congr _ _ hd] at hlast
  · exact hlast (by simpa using hdz)
  · exact List.cons_ne_nil d []

/-- The decimal rendering of the serial is injective. -/
theorem decimalString_injective : Function.Injective decimalString := by
  intro m n h
  unfold decimalString at h
  by_cases hm : m = 0 <;> by_cases hn : n = 0
  · rw [hm, hn]
  · rw [if_pos hm, if_neg hn] at h
    exact absurd (congrArg String.data h)
      (decimalString_ne_zero_render n hn)
  · rw [if_neg hm, if_pos hn] at h
    exact absurd (congrArg String.data h).symm
      (decimalString_ne_zero_render m hm)
  · rw [if_neg hm, if_neg hn] at h
    have hd := congrArg String.data h
    have hrev := List.reverse_inj.mp hd
    have hdig : Nat.digits 10 m = Nat.digits 10 n :=
      map_digitChar_inj _ _
        (fun d hdm => Nat.digits_lt_base (by norm_num) hdm)
        (fun d hdn => Nat.digits_lt_base (by norm_num) hdn) hrev
    exact Nat.digits_inj_iff.mp hdig

/-- Appending the fixed path prefix to the rendered serial is injective. -/
theorem handle_injective :
    Function.Injective (fun i => GEOCLUE_MASTER_PATH ++ decimalString i) := by
  intro a b h
  apply decimalString_injective
  apply String.ext
  have hd := congrArg String.data h
  rw [String.data_append, String.data_append] at hd
  exact List.append_cancel_left hd

/-- The handles returned by consecutive creations are the fixed prefix
followed by the consecutive serial values, as long as the counter does not
wrap. -/
theorem createMany_handles : ∀ (senders : List String) (s : MasterState),
    s.serial + senders.length ≤ UINT32_MOD →
    (createMany s senders).2
      = (List.range' s.serial senders.length).map
          (fun i => GEOCLUE_MASTER_PATH ++ decimalString i) := by
  intro senders
  induction senders with
  | nil => intro s _; rfl
  | cons snd rest ih =>
      intro s h
      have hcons : (createMany s (snd :: rest)).2
          = (gc_iface_master_create snd s).2
              :: (createMany (gc_iface_master_create snd s).1 rest).2 := rfl
      rw [hcons, List.length_cons, List.range'_succ, List.map_cons]
      refine congrArg₂ List.cons rfl ?_
      cases rest with
      | nil => rfl
      | cons r t =>
          have hlt : s.serial + 1 < UINT32_MOD := by
            simp only [List.length_cons] at h
            omega
          have hser : (gc_iface_master_create snd s).1.serial = s.serial + 1 :=
            Nat.mod_eq_of_lt hlt
          have hrest : (gc_iface_master_create snd s).1.serial + (r :: t).length
              ≤ UINT32_MOD := by
            rw [hser]
            simp only [List.length_cons] at h ⊢
            omega
          rw [ih (gc_iface_master_create snd s).1 hrest, hser]

/-- C9: the handles returned by N consecutive session creations within one
process lifetime (serial counter not wrapping) are pairwise distinct:
`List.Nodup` is exactly `List.Pairwise (· ≠ ·)`. -/
theorem C9_handles_pairwise_distinct (s : MasterState) (senders : List String)
    (h : s.serial + senders.length ≤ UINT32_MOD) :
    ((createMany s senders).2).Nodup := by
  rw [createMany_handles senders s h]
  exact List.Nodup.map handle_injective (List.nodup_range' _ _ _)

/-- C9 witness: three consecutive creations from a fresh master yield three
pairwise-distinct handles. -/
theorem C9_handles_pairwise_distinct_witness :
    ((createMany (gc_master_init []) [":1.1", ":1.2", ":1.3"]).2).Nodup :=
  C9_handles_pairwise_distinct (gc_master_init []) [":1.1", ":1.2", ":1.3"]
    (by norm_num [gc_master_init, UINT32_MOD, gc_master_load_providers])

end Geoclue
